import Mathlib

/-!
# Geocode cache service — verification of the core algorithm

A shallow embedding of the geocode read-through cache implemented in
`server.js` of the dayAndNight repository: the SQLite-backed Location
Store and Search Log, the query normalizer, the upstream Nominatim
gateway call, the `/api/geocode` request handler, and the analytics
`cacheHitRate` aggregate.

Modelling conventions:

* The SQLite database (`locations` and `search_logs` tables) becomes an
  explicit `DB` state threaded through every operation; `AUTOINCREMENT`
  primary keys become the `nextLocationId` / `nextLogId` counters
  (SQLite starts them at 1).
* The upstream `fetch` to Nominatim is the one external effect; a
  `geocode` run is parametrised by the gateway's behaviour for that run
  (`GatewayResult`: a parsed JSON candidate array, or an exception from
  `fetch`/`response.json()`).
* The provider response `data` is the value produced by
  `response.json()`; the source stores `JSON.stringify(data)` in the
  `full_response` column and replays `JSON.parse` on a cache hit.  On
  values that are themselves parsed JSON this round-trip is the
  identity, so the embedding stores the candidate list directly in
  `full_response`.
* Nominatim returns coordinates as JSON strings and the source applies
  `parseFloat` before insertion; the embedding carries the numeric value
  (`Rat`, standing in for the REAL column) directly, making `parseFloat`
  the identity here.  JavaScript `string.length` counts UTF-16 units and
  Lean `String.length` counts code points; they agree on the queries
  considered here.  Likewise `toLowerCase`/`trim` and
  `String.toLower`/`String.trim` agree on these inputs.
* `better-sqlite3`'s `stmt.run` throws on a failed write.  Whether the
  `search_logs` INSERT succeeds is the `logWriteOk` parameter of
  `geocode`; a throw on the cache-hit path escapes the handler (that
  call sits outside the `try` block), a throw on the miss path lands in
  the `catch` block.
-/

/-- One provider candidate from the Nominatim search response: a display
name, coordinates, and whatever further opaque fields the provider sent. -/
structure Candidate where
  display_name : String
  lat : Rat
  lon : Rat
  extra : List (String × String)
deriving DecidableEq, Repr

/-- A row of the `locations` table: `id INTEGER PRIMARY KEY AUTOINCREMENT`,
`query TEXT NOT NULL UNIQUE`, `display_name`, `lat`, `lon`, and the
serialized provider response `full_response` (stored here as the candidate
list it serializes; see the module header).  `created_at` is a wall-clock
default not modelled. -/
structure LocationRow where
  id : Nat
  query : String
  display_name : String
  lat : Rat
  lon : Rat
  full_response : List Candidate
deriving DecidableEq, Repr

/-- A row of the `search_logs` table: `id`, the raw query as submitted,
the nullable `location_id` foreign key, and the client metadata.  The
`timestamp` column is a wall-clock default not modelled. -/
structure SearchLogRow where
  id : Nat
  query : String
  location_id : Option Nat
  ip_address : String
  user_agent : String
deriving DecidableEq, Repr

/-- The persistent state: both tables plus the AUTOINCREMENT counters. -/
structure DB where
  locations : List LocationRow
  search_logs : List SearchLogRow
  nextLocationId : Nat
  nextLogId : Nat
deriving DecidableEq, Repr

/-- The freshly created database: both tables empty, AUTOINCREMENT ids
starting at 1. -/
def initialDB : DB := { locations := [], search_logs := [], nextLocationId := 1, nextLogId := 1 }

/-- Prepared statement `findLocation`:
`SELECT full_response, id FROM locations WHERE query = ?`.
A pure point lookup on the unique `query` key (the whole row is returned
here; the source selects the two columns it uses). -/
def findLocation (db : DB) (q : String) : Option LocationRow :=
  db.locations.find? (fun r => r.query == q)

/-- Prepared statement `insertLocation`:
`INSERT OR IGNORE INTO locations (query, display_name, lat, lon, full_response) VALUES (?, ?, ?, ?, ?)`.
Under the UNIQUE constraint on `query`, `OR IGNORE` makes the insert a
silent no-op when a row with this key already exists; otherwise the row is
appended with the next AUTOINCREMENT id. -/
def insertLocation (db : DB) (q dn : String) (lat lon : Rat) (fr : List Candidate) : DB :=
  match findLocation db q with
  | some _ => db
  | none =>
    { db with
      locations := db.locations ++
        [{ id := db.nextLocationId, query := q, display_name := dn,
           lat := lat, lon := lon, full_response := fr }],
      nextLocationId := db.nextLocationId + 1 }

/-- Prepared statement `logSearch`:
`INSERT INTO search_logs (query, location_id, ip_address, user_agent) VALUES (?, ?, ?, ?)`.
Appends one audit row with the next AUTOINCREMENT id. -/
def logSearch (db : DB) (q : String) (locId : Option Nat) (ip ua : String) : DB :=
  { db with
    search_logs := db.search_logs ++
      [{ id := db.nextLogId, query := q, location_id := locId,
         ip_address := ip, user_agent := ua }],
    nextLogId := db.nextLogId + 1 }

/-- JavaScript `string.toLowerCase()`, modelled character by character
over the string's code points (`Char.toLower`; the queries considered
here are ASCII, where the two agree). -/
def toLowerCase (s : String) : String := String.mk (s.data.map Char.toLower)

/-- JavaScript `string.trim()`: drop leading and trailing whitespace,
modelled over the string's code points with `Char.isWhitespace`. -/
def trimWs (s : String) : String :=
  String.mk (((s.data.dropWhile Char.isWhitespace).reverse.dropWhile Char.isWhitespace).reverse)

/-- The query normalizer, inlined in the source at
`const normalizedQuery = query.toLowerCase().trim()`. -/
def normalizeQuery (q : String) : String := trimWs (toLowerCase q)

/-- The upstream request the miss path issues, read off the source's
`fetch` call: the Nominatim search URL parameters and the options object.
The options carry only a `User-Agent` header — no `AbortSignal`, timeout,
or retry is configured, hence `timeoutMs := none`. -/
structure FetchRequest where
  host : String
  searchQuery : String
  format : String
  limit : Nat
  userAgent : String
  timeoutMs : Option Nat
deriving DecidableEq, Repr

/-- The concrete request `fetch` is given for a query: Nominatim search
with `format=json&limit=5`, identified as DaylightViz, and no timeout. -/
def gatewayRequest (query : String) : FetchRequest :=
  { host := "nominatim.openstreetmap.org"
    searchQuery := query
    format := "json"
    limit := 5
    userAgent := "DaylightViz/1.0 (daylightviz.org)"
    timeoutMs := none }

/-- The gateway's behaviour on one upstream call: `ok data` when `fetch`
and `response.json()` succeed with the parsed candidate array `data`
(possibly empty), `unavailable` when either throws (network failure,
non-JSON body — the spec's GeocodeUnavailable condition). -/
inductive GatewayResult where
  | ok (data : List Candidate)
  | unavailable
deriving DecidableEq, Repr

/-- What the handler sends back: `res.json(data)` with a candidate list,
`res.status(500).json(...)` from the catch block, or nothing at all when
an exception escapes the handler (a `logSearch.run` throw on the cache-hit
path, which sits outside the `try` block). -/
inductive GeocodeResponse where
  | results (data : List Candidate)
  | serverError
  | unhandledError
deriving DecidableEq, Repr

/-- The observable outcome of one `/api/geocode` request: the HTTP
response, the database afterwards, how many Store SELECTs ran, and the
upstream fetches issued (empty on the hit and short-circuit paths). -/
structure GeocodeOutcome where
  response : GeocodeResponse
  db : DB
  storeLookups : Nat
  upstreamRequests : List FetchRequest
deriving DecidableEq, Repr

/-- The number of upstream gateway invocations an outcome performed. -/
def GeocodeOutcome.gatewayCalls (o : GeocodeOutcome) : Nat :=
  o.upstreamRequests.length

/-- The `/api/geocode` handler, translated line by line from the source.
`q` is `req.query.q` (`none` when absent), `ip`/`ua` the client metadata,
`gateway` the upstream's behaviour for this run, `logWriteOk` whether the
`search_logs` INSERT succeeds (see the module header).

Guard: `if (!query || query.length < 3) return res.json([])` — the empty
string is falsy in JavaScript, hence the first disjunct.  Then the query
is normalized, the Store consulted; on a hit the stored response is
replayed and the attempt logged; on a miss the gateway is called, a
non-empty result's first candidate is inserted (idempotently), the new
row's id is re-selected, the attempt logged, and the full list returned;
an empty result logs a null location; any throw inside the `try` yields
the 500 catch block, which writes no log row. -/
def geocode (db : DB) (q : Option String) (ip ua : String)
    (gateway : GatewayResult) (logWriteOk : Bool) : GeocodeOutcome :=
  match q with
  | none =>
    { response := .results [], db := db, storeLookups := 0, upstreamRequests := [] }
  | some query =>
    if query = "" ∨ query.length < 3 then
      { response := .results [], db := db, storeLookups := 0, upstreamRequests := [] }
    else
      let normalizedQuery := normalizeQuery query
      match findLocation db normalizedQuery with
      | some cached =>
        if logWriteOk then
          { response := .results cached.full_response
            db := logSearch db query (some cached.id) ip ua
            storeLookups := 1, upstreamRequests := [] }
        else
          { response := .unhandledError, db := db
            storeLookups := 1, upstreamRequests := [] }
      | none =>
        match gateway with
        | .unavailable =>
          { response := .serverError, db := db
            storeLookups := 1, upstreamRequests := [gatewayRequest query] }
        | .ok data =>
          match data with
          | [] =>
            if logWriteOk then
              { response := .results []
                db := logSearch db query none ip ua
                storeLookups := 1, upstreamRequests := [gatewayRequest query] }
            else
              { response := .serverError, db := db
                storeLookups := 1, upstreamRequests := [gatewayRequest query] }
          | firstResult :: _ =>
            let db1 := insertLocation db normalizedQuery firstResult.display_name
              firstResult.lat firstResult.lon data
            let locationId := (findLocation db1 normalizedQuery).map (fun r => r.id)
            if logWriteOk then
              { response := .results data
                db := logSearch db1 query locationId ip ua
                storeLookups := 2, upstreamRequests := [gatewayRequest query] }
            else
              { response := .serverError, db := db1
                storeLookups := 2, upstreamRequests := [gatewayRequest query] }

/-- The four routes of the service, as far as they touch the database:
the geocode handler is the only mutator; `/health`, `/api/analytics` and
`/api/export` only read (SELECT aggregates and dumps). -/
inductive ApiRequest where
  | health
  | geocodeApi (q : Option String) (ip ua : String) (gw : GatewayResult) (logOk : Bool)
  | analyticsApi
  | exportApi

/-- The database after serving one request of any route. -/
def handle (db : DB) (r : ApiRequest) : DB :=
  match r with
  | .health => db
  | .geocodeApi q ip ua gw lk => (geocode db q ip ua gw lk).db
  | .analyticsApi => db
  | .exportApi => db

/-- `SELECT COUNT(*) FROM search_logs` — the analytics total. -/
def totalSearches (db : DB) : Nat := db.search_logs.length

/-- `SELECT COUNT(*) FROM search_logs WHERE location_id IS NOT NULL` —
the analytics hit count. -/
def hitLogCount (db : DB) : Nat :=
  (db.search_logs.filter (fun r => r.location_id.isSome)).length

/-- `SELECT COUNT(*) FROM locations` — the analytics unique-location count. -/
def uniqueLocations (db : DB) : Nat := db.locations.length

/-- JavaScript's `x.toFixed(2)` on a non-negative value, read numerically:
round to the nearest multiple of 1/100, ties toward the larger value
(ECMA-262 picks the larger n), as performed on the exact rational. -/
def toFixed2 (x : Rat) : Rat := ((round (x * 100) : ℤ) : Rat) / 100

/-- The analytics `cacheHitRate` field:
`total > 0 ? ((hits / total) * 100).toFixed(2) : 0`, read numerically
(the source returns the formatted string on the first branch and the
number 0 on the second). -/
def cacheHitRate (db : DB) : Rat :=
  if 0 < totalSearches db
  then toFixed2 (((hitLogCount db : Rat) / (totalSearches db : Rat)) * 100)
  else 0

/-- The Store invariant of the spec: at most one Location row per
normalized query — pairwise distinct `query` keys. -/
def LocationsUnique (db : DB) : Prop :=
  db.locations.Pairwise (fun a b => a.query ≠ b.query)

/-- A concrete provider candidate used in witnesses (coordinates kept
integral so that whole-structure equalities evaluate by `decide`). -/
def parisCand : Candidate :=
  { display_name := "Paris, France", lat := 48, lon := 2, extra := [] }

/-- A database already holding a cached row for the key "paris". -/
def dbCached : DB :=
  { locations := [{ id := 1, query := "paris", display_name := "Paris, France",
                    lat := 48, lon := 2, full_response := [parisCand] }]
    search_logs := []
    nextLocationId := 2
    nextLogId := 1 }

/-- A database whose log holds three entries, one of them with a
location reference — the 1-hit-in-3 analytics example. -/
def db3 : DB :=
  { locations := []
    search_logs :=
      [{ id := 1, query := "paris", location_id := some 1, ip_address := "ip", user_agent := "ua" },
       { id := 2, query := "berlin", location_id := none, ip_address := "ip", user_agent := "ua" },
       { id := 3, query := "tokyo", location_id := none, ip_address := "ip", user_agent := "ua" }]
    nextLocationId := 1
    nextLogId := 4 }

/-- Auxiliary: the log insert leaves the locations table untouched, so
cache lookups read through it unchanged. -/
lemma findLocation_logSearch (db : DB) (q : String) (lid : Option Nat) (ip ua k : String) :
    findLocation (logSearch db q lid ip ua) k = findLocation db k := rfl

/-- Auxiliary: inserting under an absent key and looking the key up again
finds exactly the inserted row, carrying the fresh AUTOINCREMENT id. -/
lemma findLocation_insertLocation_self (db : DB) (q dn : String) (lat lon : Rat)
    (fr : List Candidate) (h : findLocation db q = none) :
    findLocation (insertLocation db q dn lat lon fr) q =
      some { id := db.nextLocationId, query := q, display_name := dn,
             lat := lat, lon := lon, full_response := fr } := by
  unfold insertLocation
  rw [h]
  unfold findLocation at h ⊢
  simp [List.find?_append, h]

/-- Auxiliary: a raw query of length at least 3 passes the handler's
guard (`!query || query.length < 3` is false). -/
lemma guard_false_of_length (q : String) (h : 3 ≤ q.length) :
    ¬(q = "" ∨ q.length < 3) := by
  rintro (rfl | hlt)
  · exact absurd h (by decide)
  · omega

/-- Auxiliary: the cache-hit path, fully evaluated — the stored response
is replayed, one log row referencing the cached id is appended, and no
upstream request is issued. -/
lemma geocode_hit (db : DB) (q ip ua : String) (gw : GatewayResult) (cached : LocationRow)
    (hq : 3 ≤ q.length) (hf : findLocation db (normalizeQuery q) = some cached) :
    geocode db (some q) ip ua gw true =
      { response := GeocodeResponse.results cached.full_response
        db := logSearch db q (some cached.id) ip ua
        storeLookups := 1, upstreamRequests := [] } := by
  simp only [geocode, if_neg (guard_false_of_length q hq), hf, if_true]

/-- Auxiliary: the miss path on a non-empty gateway result, fully
evaluated — the first candidate is inserted under the normalized key, the
new row's id is re-selected and logged, the full list is returned, and one
upstream request is issued. -/
lemma geocode_miss_ok (db : DB) (q ip ua : String) (c : Candidate) (cs : List Candidate)
    (hq : 3 ≤ q.length) (hf : findLocation db (normalizeQuery q) = none) :
    geocode db (some q) ip ua (GatewayResult.ok (c :: cs)) true =
      { response := GeocodeResponse.results (c :: cs)
        db := logSearch
          (insertLocation db (normalizeQuery q) c.display_name c.lat c.lon (c :: cs))
          q (some db.nextLocationId) ip ua
        storeLookups := 2
        upstreamRequests := [gatewayRequest q] } := by
  simp only [geocode, if_neg (guard_false_of_length q hq), hf]
  rw [findLocation_insertLocation_self db _ _ _ _ _ hf]
  rfl

/-- Auxiliary: the miss path on an empty gateway result — one null-location
log row, empty list returned, one upstream request. -/
lemma geocode_miss_empty (db : DB) (q ip ua : String)
    (hq : 3 ≤ q.length) (hf : findLocation db (normalizeQuery q) = none) :
    geocode db (some q) ip ua (GatewayResult.ok []) true =
      { response := GeocodeResponse.results []
        db := logSearch db q none ip ua
        storeLookups := 1
        upstreamRequests := [gatewayRequest q] } := by
  simp only [geocode, if_neg (guard_false_of_length q hq), hf, if_true]

/-- Auxiliary: the miss path when the gateway throws — the catch block
sends a 500 and writes nothing, leaving the database untouched. -/
lemma geocode_unavailable (db : DB) (q ip ua : String) (lk : Bool)
    (hq : 3 ≤ q.length) (hf : findLocation db (normalizeQuery q) = none) :
    geocode db (some q) ip ua GatewayResult.unavailable lk =
      { response := GeocodeResponse.serverError
        db := db
        storeLookups := 1
        upstreamRequests := [gatewayRequest q] } := by
  simp only [geocode, if_neg (guard_false_of_length q hq), hf]

/-- Auxiliary: the idempotent insert preserves key uniqueness — it only
ever appends a key the table does not yet hold. -/
lemma locationsUnique_insertLocation (db : DB) (q dn : String) (lat lon : Rat)
    (fr : List Candidate) (h : LocationsUnique db) :
    LocationsUnique (insertLocation db q dn lat lon fr) := by
  unfold insertLocation
  cases hf : findLocation db q with
  | some r => exact h
  | none =>
    unfold LocationsUnique at h ⊢
    rw [List.pairwise_append]
    refine ⟨h, List.pairwise_singleton _ _, ?_⟩
    intro a ha b hb
    simp only [List.mem_singleton] at hb
    subst hb
    unfold findLocation at hf
    have := List.find?_eq_none.mp hf a ha
    simpa using this

/-- Auxiliary: a geocode request preserves key uniqueness on every path. -/
lemma locationsUnique_geocode (db : DB) (q : Option String) (ip ua : String)
    (gw : GatewayResult) (lk : Bool) (h : LocationsUnique db) :
    LocationsUnique (geocode db q ip ua gw lk).db := by
  unfold geocode
  cases q with
  | none => exact h
  | some query =>
    dsimp only
    repeat' split
    all_goals
      first
      | exact h
      | exact locationsUnique_insertLocation _ _ _ _ _ _ h

/-- Auxiliary: the idempotent insert under an absent key, unfolded to the
append it performs. -/
lemma insertLocation_of_absent (db : DB) (q dn : String) (lat lon : Rat)
    (fr : List Candidate) (h : findLocation db q = none) :
    insertLocation db q dn lat lon fr =
      { db with
        locations := db.locations ++
          [{ id := db.nextLocationId, query := q, display_name := dn,
             lat := lat, lon := lon, full_response := fr }],
        nextLocationId := db.nextLocationId + 1 } := by
  unfold insertLocation
  rw [h]

/-- Claim C1, as stated, is false on the code: for a query whose first
call obtains the empty candidate list, nothing is cached, so the second
identical call issues a second upstream request — two gateway invocations
in sequence, not at most one. -/
theorem C1_counterexample :
    ¬((geocode initialDB (some "berlin") "ip" "ua" (GatewayResult.ok []) true).gatewayCalls +
      (geocode (geocode initialDB (some "berlin") "ip" "ua" (GatewayResult.ok []) true).db
        (some "berlin") "ip" "ua" (GatewayResult.ok []) true).gatewayCalls ≤ 1) := by
  decide

/-- Claim C1 (amended): for a query of length at least 3 that is already
cached or whose first call obtains at least one candidate, the second of
two sequential calls makes zero upstream requests, is answered from the
Store with a response equal to the first call's (the stored serialized
response replayed through the JSON round-trip), and the two calls invoke
the gateway at most once in total. -/
theorem C1_second_call_served_from_store
    (db : DB) (q ip1 ua1 ip2 ua2 : String) (gw1 gw2 : GatewayResult)
    (hq : 3 ≤ q.length)
    (hres : (∃ cached, findLocation db (normalizeQuery q) = some cached) ∨
            (∃ c cs, gw1 = GatewayResult.ok (c :: cs))) :
    (geocode (geocode db (some q) ip1 ua1 gw1 true).db
        (some q) ip2 ua2 gw2 true).gatewayCalls = 0 ∧
    (geocode (geocode db (some q) ip1 ua1 gw1 true).db
        (some q) ip2 ua2 gw2 true).response =
      (geocode db (some q) ip1 ua1 gw1 true).response ∧
    (geocode db (some q) ip1 ua1 gw1 true).gatewayCalls +
      (geocode (geocode db (some q) ip1 ua1 gw1 true).db
        (some q) ip2 ua2 gw2 true).gatewayCalls ≤ 1 := by
  cases hfd : findLocation db (normalizeQuery q) with
  | some cached =>
    rw [geocode_hit db q ip1 ua1 gw1 cached hq hfd]
    have hf2 : findLocation (logSearch db q (some cached.id) ip1 ua1)
        (normalizeQuery q) = some cached := by
      rw [findLocation_logSearch]; exact hfd
    rw [geocode_hit _ q ip2 ua2 gw2 cached hq hf2]
    simp [GeocodeOutcome.gatewayCalls]
  | none =>
    rcases hres with ⟨cached, hf⟩ | ⟨c, cs, rfl⟩
    · rw [hfd] at hf; exact absurd hf (by simp)
    · rw [geocode_miss_ok db q ip1 ua1 c cs hq hfd]
      have hf2 : findLocation
          (logSearch (insertLocation db (normalizeQuery q) c.display_name c.lat c.lon (c :: cs))
            q (some db.nextLocationId) ip1 ua1) (normalizeQuery q) =
          some { id := db.nextLocationId, query := normalizeQuery q,
                 display_name := c.display_name, lat := c.lat, lon := c.lon,
                 full_response := c :: cs } := by
        rw [findLocation_logSearch]
        exact findLocation_insertLocation_self db _ _ _ _ _ hfd
      rw [geocode_hit _ q ip2 ua2 gw2 _ hq hf2]
      simp [GeocodeOutcome.gatewayCalls]

/-- Witness for the amended C1: the concrete miss-then-hit run for
"paris" on the fresh database. -/
theorem C1_second_call_served_from_store_witness :
    (geocode (geocode initialDB (some "paris") "ip" "ua" (GatewayResult.ok [parisCand]) true).db
        (some "paris") "ip" "ua" (GatewayResult.ok []) true).gatewayCalls = 0 ∧
    (geocode (geocode initialDB (some "paris") "ip" "ua" (GatewayResult.ok [parisCand]) true).db
        (some "paris") "ip" "ua" (GatewayResult.ok []) true).response =
      (geocode initialDB (some "paris") "ip" "ua" (GatewayResult.ok [parisCand]) true).response ∧
    (geocode initialDB (some "paris") "ip" "ua" (GatewayResult.ok [parisCand]) true).gatewayCalls +
      (geocode (geocode initialDB (some "paris") "ip" "ua" (GatewayResult.ok [parisCand]) true).db
        (some "paris") "ip" "ua" (GatewayResult.ok []) true).gatewayCalls ≤ 1 :=
  C1_second_call_served_from_store initialDB "paris" "ip" "ua" "ip" "ua"
    (GatewayResult.ok [parisCand]) (GatewayResult.ok []) (by decide)
    (Or.inr ⟨parisCand, [], rfl⟩)

/-- Claim C2: the Store holds at most one Location row per normalized
key — pairwise key uniqueness is preserved by every route of the service,
and a later insert for an existing key is an error-free no-op that leaves
every field of the existing record (and the whole database) unchanged. -/
theorem C2_unique_location_invariant (db : DB) (r : ApiRequest)
    (k dn : String) (lat lon : Rat) (fr : List Candidate)
    (h : LocationsUnique db) :
    LocationsUnique (handle db r) ∧
      ((findLocation db k).isSome = true → insertLocation db k dn lat lon fr = db) := by
  constructor
  · cases r with
    | health => exact h
    | geocodeApi q ip ua gw lk => exact locationsUnique_geocode db q ip ua gw lk h
    | analyticsApi => exact h
    | exportApi => exact h
  · intro hk
    unfold insertLocation
    cases hf : findLocation db k with
    | some r' => rfl
    | none => rw [hf] at hk; simp at hk

/-- Witness for C2: the invariant holds on the database already caching
"paris", survives a geocode request, and the duplicate insert for the key
"paris" is a no-op. -/
theorem C2_unique_location_invariant_witness :
    LocationsUnique (handle dbCached
      (ApiRequest.geocodeApi (some "Paris") "ip" "ua" (GatewayResult.ok []) true)) ∧
      ((findLocation dbCached "paris").isSome = true →
        insertLocation dbCached "paris" "other" 0 0 [] = dbCached) :=
  C2_unique_location_invariant dbCached
    (ApiRequest.geocodeApi (some "Paris") "ip" "ua" (GatewayResult.ok []) true)
    "paris" "other" 0 0 [] (by simp [LocationsUnique, dbCached])

/-- Claim C3: an absent raw query, or one shorter than 3 characters,
short-circuits — the response is the empty list, no Store lookup, no
upstream request and no log write happen, and the database is returned
unchanged. -/
theorem C3_short_query_short_circuit (db : DB) (q : Option String) (ip ua : String)
    (gw : GatewayResult) (lk : Bool)
    (h : q = none ∨ ∃ s, q = some s ∧ s.length < 3) :
    geocode db q ip ua gw lk =
      { response := GeocodeResponse.results [], db := db
        storeLookups := 0, upstreamRequests := [] } := by
  rcases h with rfl | ⟨s, rfl, hlen⟩
  · rfl
  · simp only [geocode, if_pos (Or.inr hlen)]

/-- Witness for C3: the spec's own two-character example, geocode("pa"). -/
theorem C3_short_query_short_circuit_witness :
    geocode dbCached (some "pa") "ip" "ua" (GatewayResult.ok [parisCand]) true =
      { response := GeocodeResponse.results [], db := dbCached
        storeLookups := 0, upstreamRequests := [] } :=
  C3_short_query_short_circuit dbCached (some "pa") "ip" "ua"
    (GatewayResult.ok [parisCand]) true (Or.inr ⟨"pa", rfl, by decide⟩)

/-- Claim C4: normalization is exactly lowercasing then trimming
surrounding whitespace, and two raw queries that normalize identically
share one cache key — after a first resolving call creates its single
Location row, a call with any identically-normalizing raw query is served
from the Store with zero upstream requests and creates no further row. -/
theorem C4_normalization_equivalence
    (db : DB) (q1 q2 ip ua : String) (gw2 : GatewayResult)
    (c : Candidate) (cs : List Candidate)
    (hnorm : normalizeQuery q1 = normalizeQuery q2)
    (h1 : 3 ≤ q1.length) (h2 : 3 ≤ q2.length)
    (hf : findLocation db (normalizeQuery q1) = none) :
    normalizeQuery q1 = trimWs (toLowerCase q1) ∧
    (geocode db (some q1) ip ua (GatewayResult.ok (c :: cs)) true).db.locations.length =
      db.locations.length + 1 ∧
    (geocode (geocode db (some q1) ip ua (GatewayResult.ok (c :: cs)) true).db
        (some q2) ip ua gw2 true).gatewayCalls = 0 ∧
    (geocode (geocode db (some q1) ip ua (GatewayResult.ok (c :: cs)) true).db
        (some q2) ip ua gw2 true).db.locations =
      (geocode db (some q1) ip ua (GatewayResult.ok (c :: cs)) true).db.locations := by
  have e1 := geocode_miss_ok db q1 ip ua c cs h1 hf
  have hf2 : findLocation
      (logSearch (insertLocation db (normalizeQuery q1) c.display_name c.lat c.lon (c :: cs))
        q1 (some db.nextLocationId) ip ua) (normalizeQuery q2) =
      some { id := db.nextLocationId, query := normalizeQuery q1,
             display_name := c.display_name, lat := c.lat, lon := c.lon,
             full_response := c :: cs } := by
    rw [findLocation_logSearch, ← hnorm]
    exact findLocation_insertLocation_self db _ _ _ _ _ hf
  refine ⟨rfl, ?_, ?_, ?_⟩
  · rw [e1, insertLocation_of_absent db _ _ _ _ _ hf]
    simp [logSearch]
  · rw [e1, geocode_hit _ q2 ip ua gw2 _ h2 hf2]
    rfl
  · rw [e1, geocode_hit _ q2 ip ua gw2 _ h2 hf2]
    rfl

/-- Witness for C4: geocode("Paris") then geocode("  paris  ") on the
fresh database — one row created, the second call a zero-upstream hit. -/
theorem C4_normalization_equivalence_witness :
    normalizeQuery "Paris" = trimWs (toLowerCase "Paris") ∧
    (geocode initialDB (some "Paris") "ip" "ua"
        (GatewayResult.ok [parisCand]) true).db.locations.length =
      initialDB.locations.length + 1 ∧
    (geocode (geocode initialDB (some "Paris") "ip" "ua" (GatewayResult.ok [parisCand]) true).db
        (some "  paris  ") "ip" "ua" GatewayResult.unavailable true).gatewayCalls = 0 ∧
    (geocode (geocode initialDB (some "Paris") "ip" "ua" (GatewayResult.ok [parisCand]) true).db
        (some "  paris  ") "ip" "ua" GatewayResult.unavailable true).db.locations =
      (geocode initialDB (some "Paris") "ip" "ua"
        (GatewayResult.ok [parisCand]) true).db.locations :=
  C4_normalization_equivalence initialDB "Paris" "  paris  " "ip" "ua"
    GatewayResult.unavailable parisCand [] (by decide) (by decide) (by decide) (by decide)

/-- Claim C5: on a cache miss with a non-empty gateway result the handler
persists exactly the first candidate's display name and coordinates under
the normalized key together with the full serialized response, appends one
Search Log row referencing the new location's id, and returns the complete
candidate list — the whole outcome, field by field. -/
theorem C5_miss_persists_first_candidate
    (db : DB) (q ip ua : String) (c : Candidate) (cs : List Candidate)
    (hq : 3 ≤ q.length) (hf : findLocation db (normalizeQuery q) = none) :
    geocode db (some q) ip ua (GatewayResult.ok (c :: cs)) true =
      { response := GeocodeResponse.results (c :: cs)
        db := { locations := db.locations ++
                  [{ id := db.nextLocationId, query := normalizeQuery q,
                     display_name := c.display_name, lat := c.lat, lon := c.lon,
                     full_response := c :: cs }]
                search_logs := db.search_logs ++
                  [{ id := db.nextLogId, query := q, location_id := some db.nextLocationId,
                     ip_address := ip, user_agent := ua }]
                nextLocationId := db.nextLocationId + 1
                nextLogId := db.nextLogId + 1 }
        storeLookups := 2
        upstreamRequests := [gatewayRequest q] } := by
  rw [geocode_miss_ok db q ip ua c cs hq hf, insertLocation_of_absent db _ _ _ _ _ hf]
  rfl

/-- Witness for C5: the concrete first resolution of "Paris" on the fresh
database. -/
theorem C5_miss_persists_first_candidate_witness :
    geocode initialDB (some "Paris") "ip" "ua" (GatewayResult.ok [parisCand]) true =
      { response := GeocodeResponse.results [parisCand]
        db := { locations := initialDB.locations ++
                  [{ id := initialDB.nextLocationId, query := normalizeQuery "Paris",
                     display_name := parisCand.display_name, lat := parisCand.lat,
                     lon := parisCand.lon, full_response := [parisCand] }]
                search_logs := initialDB.search_logs ++
                  [{ id := initialDB.nextLogId, query := "Paris",
                     location_id := some initialDB.nextLocationId,
                     ip_address := "ip", user_agent := "ua" }]
                nextLocationId := initialDB.nextLocationId + 1
                nextLogId := initialDB.nextLogId + 1 }
        storeLookups := 2
        upstreamRequests := [gatewayRequest "Paris"] } :=
  C5_miss_persists_first_candidate initialDB "Paris" "ip" "ua" parisCand []
    (by decide) (by decide)

/-- Claim C6, as stated, is false on the code: when the gateway throws,
the catch block sends the 500 failure but writes no Search Log row — the
log stays empty instead of gaining the claimed null-location entry. -/
theorem C6_counterexample :
    (geocode initialDB (some "paris") "ip" "ua" GatewayResult.unavailable true).response =
      GeocodeResponse.serverError ∧
    (geocode initialDB (some "paris") "ip" "ua" GatewayResult.unavailable true).db.search_logs = [] ∧
    ¬((geocode initialDB (some "paris") "ip" "ua"
        GatewayResult.unavailable true).db.search_logs.length = 1) := by
  decide

/-- Claim C6 (amended): when the gateway fails on a cache miss the caller
receives the 500 service failure and exactly one upstream call was made,
but no Search Log entry is recorded — the catch block writes nothing and
the database is returned unchanged. -/
theorem C6_gateway_failure_no_log (db : DB) (q ip ua : String) (lk : Bool)
    (hq : 3 ≤ q.length) (hf : findLocation db (normalizeQuery q) = none) :
    (geocode db (some q) ip ua GatewayResult.unavailable lk).response =
      GeocodeResponse.serverError ∧
    (geocode db (some q) ip ua GatewayResult.unavailable lk).db = db ∧
    (geocode db (some q) ip ua GatewayResult.unavailable lk).gatewayCalls = 1 := by
  rw [geocode_unavailable db q ip ua lk hq hf]
  exact ⟨rfl, rfl, rfl⟩

/-- Witness for the amended C6: an unavailable gateway on a fresh miss for
"berlin" against the database that caches only "paris". -/
theorem C6_gateway_failure_no_log_witness :
    (geocode dbCached (some "berlin") "ip" "ua" GatewayResult.unavailable true).response =
      GeocodeResponse.serverError ∧
    (geocode dbCached (some "berlin") "ip" "ua" GatewayResult.unavailable true).db = dbCached ∧
    (geocode dbCached (some "berlin") "ip" "ua" GatewayResult.unavailable true).gatewayCalls = 1 :=
  C6_gateway_failure_no_log dbCached "berlin" "ip" "ua" true (by decide) (by decide)

/-- Claim C7, as stated, is false on the code: on a cache hit the
`logSearch.run` call sits outside the `try` block, so a log-write failure
escapes the handler unhandled and the caller never receives the cached
result. -/
theorem C7_counterexample :
    (geocode dbCached (some "paris") "ip" "ua" (GatewayResult.ok []) false).response =
      GeocodeResponse.unhandledError := by
  decide

/-- Claim C7 (amended): a Search Log write failure is propagated to the
caller — on a cache hit the exception escapes the handler unhandled (and
nothing is persisted), and on a miss with gateway data it is caught and
turned into the 500 error; on neither path does the caller receive the
geocoding result. -/
theorem C7_log_failure_propagates (db : DB) (q ip ua : String) :
    (∀ gw cached, 3 ≤ q.length →
      findLocation db (normalizeQuery q) = some cached →
      (geocode db (some q) ip ua gw false).response = GeocodeResponse.unhandledError ∧
      (geocode db (some q) ip ua gw false).db = db) ∧
    (∀ data, 3 ≤ q.length →
      findLocation db (normalizeQuery q) = none →
      (geocode db (some q) ip ua (GatewayResult.ok data) false).response =
        GeocodeResponse.serverError) := by
  constructor
  · intro gw cached hq hf
    simp [geocode, if_neg (guard_false_of_length q hq), hf]
  · intro data hq hf
    cases data with
    | nil => simp [geocode, if_neg (guard_false_of_length q hq), hf]
    | cons c cs => simp [geocode, if_neg (guard_false_of_length q hq), hf]

/-- Witness for the amended C7: the failing log write on the cache hit
for "Paris" leaves the handler with an unhandled exception. -/
theorem C7_log_failure_propagates_witness :
    (geocode dbCached (some "Paris") "ip" "ua" GatewayResult.unavailable false).response =
      GeocodeResponse.unhandledError ∧
    (geocode dbCached (some "Paris") "ip" "ua" GatewayResult.unavailable false).db = dbCached :=
  (C7_log_failure_propagates dbCached "Paris" "ip" "ua").1 GatewayResult.unavailable
    { id := 1, query := "paris", display_name := "Paris, France",
      lat := 48, lon := 2, full_response := [parisCand] }
    (by decide) (by decide)

/-- Auxiliary: every geocode run issues either no upstream request or
exactly the one Nominatim request for its raw query. -/
lemma upstreamRequests_form (db : DB) (q : Option String) (ip ua : String)
    (gw : GatewayResult) (lk : Bool) :
    (geocode db q ip ua gw lk).upstreamRequests = [] ∨
      ∃ s, q = some s ∧ (geocode db q ip ua gw lk).upstreamRequests = [gatewayRequest s] := by
  unfold geocode
  cases q with
  | none => exact Or.inl rfl
  | some query =>
    dsimp only
    repeat' split
    all_goals
      first
      | exact Or.inl rfl
      | exact Or.inr ⟨query, rfl, rfl⟩

/-- Claim C8, as stated, is false on the code: the miss path issues an
upstream request, and that request carries no timeout — the fetch options
hold only the User-Agent header. -/
theorem C8_counterexample :
    (geocode initialDB (some "paris") "ip" "ua" (GatewayResult.ok []) true).upstreamRequests.all
      (fun r => r.timeoutMs.isSome) = false ∧
    ¬((geocode initialDB (some "paris") "ip" "ua"
        (GatewayResult.ok []) true).upstreamRequests = []) := by
  decide

/-- Claim C8 (amended): every upstream request any geocode run issues
carries the descriptive DaylightViz User-Agent but no request timeout —
nothing bounds the wait on the external provider. -/
theorem C8_no_timeout_configured (db : DB) (q : Option String) (ip ua : String)
    (gw : GatewayResult) (lk : Bool) (r : FetchRequest)
    (hr : r ∈ (geocode db q ip ua gw lk).upstreamRequests) :
    r.timeoutMs = none ∧ r.userAgent = "DaylightViz/1.0 (daylightviz.org)" := by
  rcases upstreamRequests_form db q ip ua gw lk with he | ⟨s, _, he⟩
  · rw [he] at hr
    exact absurd hr (List.not_mem_nil r)
  · rw [he] at hr
    simp only [List.mem_singleton] at hr
    subst hr
    exact ⟨rfl, rfl⟩

/-- Witness for the amended C8: the request issued by the concrete miss
for "paris" has no timeout and the DaylightViz User-Agent. -/
theorem C8_no_timeout_configured_witness :
    (gatewayRequest "paris").timeoutMs = none ∧
      (gatewayRequest "paris").userAgent = "DaylightViz/1.0 (daylightviz.org)" :=
  C8_no_timeout_configured initialDB (some "paris") "ip" "ua" (GatewayResult.ok []) true
    (gatewayRequest "paris") (by decide)

/-- Claim C9, as stated, is false on the code: with three log entries of
which one references a location, `toFixed(2)` makes `cacheHitRate` the
rounded 33.33, not the exact 100·1/3 = 33.333… . -/
theorem C9_counterexample :
    cacheHitRate db3 = 3333 / 100 ∧
    ¬(cacheHitRate db3 = 100 * (hitLogCount db3 : Rat) / (totalSearches db3 : Rat)) := by
  have hround : round ((10000 : Rat) / 3) = 3333 := by
    rw [round_eq, Int.floor_eq_iff]
    norm_num
  have hc : cacheHitRate db3 = 3333 / 100 := by
    unfold cacheHitRate
    rw [show totalSearches db3 = 3 from rfl, show hitLogCount db3 = 1 from rfl,
      if_pos (by norm_num)]
    unfold toFixed2
    rw [show ((1 : Nat) : Rat) / ((3 : Nat) : Rat) * 100 * 100 = 10000 / 3 by push_cast; ring]
    rw [hround]
    norm_num
  refine ⟨hc, ?_⟩
  rw [hc, show totalSearches db3 = 3 from rfl, show hitLogCount db3 = 1 from rfl]
  push_cast
  norm_num

/-- Claim C9 (amended): `cacheHitRate` is 0 when the log is empty, and
with N > 0 log entries of which K reference a location it is 100·K/N
rounded to two decimal places by `toFixed(2)` — an integer number of
hundredths lying within 1/200 of the exact ratio. -/
theorem C9_hit_rate_rounded (db : DB) :
    (totalSearches db = 0 → cacheHitRate db = 0) ∧
    (0 < totalSearches db →
      ∃ m : ℤ, cacheHitRate db = (m : Rat) / 100 ∧
        |cacheHitRate db - 100 * (hitLogCount db : Rat) / (totalSearches db : Rat)| ≤ 1 / 200) := by
  constructor
  · intro h0
    unfold cacheHitRate
    rw [h0]
    norm_num
  · intro hpos
    have he : cacheHitRate db =
        toFixed2 ((hitLogCount db : Rat) / (totalSearches db : Rat) * 100) := by
      unfold cacheHitRate
      rw [if_pos hpos]
    refine ⟨round ((hitLogCount db : Rat) / (totalSearches db : Rat) * 100 * 100), ?_, ?_⟩
    · rw [he]
      rfl
    · rw [he]
      have hvv : 100 * (hitLogCount db : Rat) / (totalSearches db : Rat) =
          (hitLogCount db : Rat) / (totalSearches db : Rat) * 100 := by
        ring
      rw [hvv]
      have h := abs_sub_round ((hitLogCount db : Rat) / (totalSearches db : Rat) * 100 * 100)
      have e : toFixed2 ((hitLogCount db : Rat) / (totalSearches db : Rat) * 100) -
          (hitLogCount db : Rat) / (totalSearches db : Rat) * 100 =
          -(((hitLogCount db : Rat) / (totalSearches db : Rat) * 100 * 100 -
            round ((hitLogCount db : Rat) / (totalSearches db : Rat) * 100 * 100)) / 100) := by
        unfold toFixed2
        ring
      rw [e, abs_neg, abs_div]
      rw [show |(100 : Rat)| = 100 by norm_num]
      rw [show (1 : Rat) / 200 = (1 / 2) / 100 by norm_num]
      exact div_le_div_of_nonneg_right h (by norm_num)

/-- Witness for the amended C9: the 1-hit-in-3 database. -/
theorem C9_hit_rate_rounded_witness :
    0 < totalSearches db3 ∧
    ∃ m : ℤ, cacheHitRate db3 = (m : Rat) / 100 ∧
      |cacheHitRate db3 - 100 * (hitLogCount db3 : Rat) / (totalSearches db3 : Rat)| ≤ 1 / 200 :=
  ⟨by decide, (C9_hit_rate_rounded db3).2 (by decide)⟩

/-- Claim C10: the length guard reads the raw query before normalization —
a raw query of 3 or more characters whose normalized form is shorter than
3 is not short-circuited: the run performs the Store lookups, issues the
gateway call, appends the log row, and on a fresh miss with results
creates a Location row whose cache key is shorter than 3 characters. -/
theorem C10_guard_precedes_normalization
    (db : DB) (q ip ua : String) (c : Candidate) (cs : List Candidate)
    (hq : 3 ≤ q.length) (hshort : (normalizeQuery q).length < 3)
    (hf : findLocation db (normalizeQuery q) = none) :
    (geocode db (some q) ip ua (GatewayResult.ok (c :: cs)) true).storeLookups = 2 ∧
    (geocode db (some q) ip ua (GatewayResult.ok (c :: cs)) true).gatewayCalls = 1 ∧
    (geocode db (some q) ip ua (GatewayResult.ok (c :: cs)) true).db.search_logs.length =
      db.search_logs.length + 1 ∧
    ∃ row ∈ (geocode db (some q) ip ua (GatewayResult.ok (c :: cs)) true).db.locations,
      row.query = normalizeQuery q ∧ row.query.length < 3 := by
  rw [geocode_miss_ok db q ip ua c cs hq hf, insertLocation_of_absent db _ _ _ _ _ hf]
  refine ⟨rfl, rfl, ?_, ?_⟩
  · simp [logSearch]
  · refine ⟨LocationRow.mk db.nextLocationId (normalizeQuery q) c.display_name
        c.lat c.lon (c :: cs), ?_, rfl, hshort⟩
    simp [logSearch]

/-- Witness for C10: the raw query " a " (3 characters) passes the guard,
reaches the gateway and caches under the 1-character key "a". -/
theorem C10_guard_precedes_normalization_witness :
    (geocode initialDB (some " a ") "ip" "ua" (GatewayResult.ok [parisCand]) true).storeLookups = 2 ∧
    (geocode initialDB (some " a ") "ip" "ua" (GatewayResult.ok [parisCand]) true).gatewayCalls = 1 ∧
    (geocode initialDB (some " a ") "ip" "ua"
        (GatewayResult.ok [parisCand]) true).db.search_logs.length =
      initialDB.search_logs.length + 1 ∧
    ∃ row ∈ (geocode initialDB (some " a ") "ip" "ua"
        (GatewayResult.ok [parisCand]) true).db.locations,
      row.query = normalizeQuery " a " ∧ row.query.length < 3 :=
  C10_guard_precedes_normalization initialDB " a " "ip" "ua" parisCand []
    (by decide) (by decide) (by decide)
